import Mathlib

/-!
Shallow embedding of `last-guardian.py` (the LastGuardian last-train search).

Conventions of the embedding:
* An instant is a rational number of minutes on the KST civil timeline
  (minutes since an arbitrary fixed midnight).  `datetime` arithmetic on
  KST-zoned values is exact affine arithmetic on this line (KST has no DST),
  `now.hour` is the hour-of-day of that minute count, and
  `now.replace(hour=h, minute=m, ...)` is `dayStart now + 60*h + m`.
* The network layer (`requests.post` inside `get_transit_route`) is
  abstracted as an oracle `Oracle : Nat -> Time -> Option RouteData`: the
  parsed value produced by the `k`-th oracle call of a run when asked for
  departure instant `t`.  `none` models every failure path of the wrapper
  (timeout, transport error, non-2xx status, unparseable body), which the
  source absorbs with `try/except` and `return None`.  A deterministic
  oracle, answering every call alike, is `detLift o`.  The HTTP decision
  itself (lines 43-49 of the source) is modelled by `http_get_transit_route`.
* Every engine function threads the number of oracle calls made so far and
  returns the updated count, so query-budget claims are counter equalities.
* Fields of the REST payload that only the presentation layer reads
  (`distanceMeters`, stop names, icons) are omitted: no claim and no
  control-flow decision of the engine depends on them.
* Two models of the parsed body coexist.  The typed layer (`RouteData` and
  the functions over it) assumes every present key is bound to a proper
  value and absorbs the failures the source's `except (KeyError,
  IndexError)` clauses anticipate.  The null-aware layer (`JRouteData`,
  the `j_...` functions, with `PyResult` for uncaught exceptions)
  additionally represents keys bound to the JSON `null` literal, on which
  the source raises `TypeError`/`AttributeError` past those handlers; the
  `jOfTyped` embedding and the agreement lemmas show the typed layer is
  exactly the null-free fragment of the null-aware one.
-/

abbrev Time := ℚ

/-- A transit line object: `transitLine` of a step.  `none` in a field means
the key is absent (or carries a falsy value the source treats as absent). -/
structure TransitLine where
  nameShort : Option String
  name : Option String
  vehicleType : Option String
deriving DecidableEq

/-- The `stopDetails` of a step.  The outer `Option` is "a truthy time string
is present"; the inner `Option` is the result of `parse_transit_time`
(`none` = the string does not parse). -/
structure StopDetails where
  departureTime : Option (Option Time)
  arrivalTime : Option (Option Time)
deriving DecidableEq

/-- The `transitDetails` of a step. -/
structure TransitDetails where
  transitLine : Option TransitLine
  stopDetails : Option StopDetails
deriving DecidableEq

/-- One step of a leg; non-transit steps carry no `transitDetails`. -/
structure Step where
  transitDetails : Option TransitDetails
deriving DecidableEq

/-- One leg of a route; `steps` is `none` when the key is absent. -/
structure Leg where
  steps : Option (List Step)
deriving DecidableEq

/-- One route alternative. -/
structure Route where
  legs : Option (List Leg)
deriving DecidableEq

/-- A parsed route-query response body.  `routes = none` models a response
with no `routes` key (the source also treats a falsy/empty response dict this
way, which is indistinguishable from it for every consumer). -/
structure RouteData where
  routes : Option (List Route)
deriving DecidableEq

/-- The access path `route_data["routes"][0]["legs"][0]["steps"]` shared by
all extraction helpers; `none` is the `(KeyError, IndexError)` branch. -/
def getSteps (rd : RouteData) : Option (List Step) :=
  match rd.routes with
  | none => none
  | some [] => none
  | some (r :: _) =>
    match r.legs with
    | none => none
    | some [] => none
    | some (l :: _) => l.steps

/-- The line label the source computes as
`line.get("nameShort") or line.get("name", "")` (Python `or`: an absent or
empty `nameShort` falls back to `name`, defaulting to `""`). -/
def lineLabel (line : TransitLine) : String :=
  match line.nameShort with
  | some s => if s = "" then line.name.getD "" else s
  | none => line.name.getD ""

/-- The vehicle type string `line.get("vehicle", \x7b\x7d).get("type", "")`. -/
def vehicleTypeOf (line : TransitLine) : String :=
  line.vehicleType.getD ""

/-- Loop body of `get_first_departure_time`: first step carrying
`stopDetails` with a truthy `departureTime` string decides the result (even
when the string fails to parse, the source returns that `None` directly). -/
def firstDepAux : List Step → Option Time
  | [] => none
  | s :: rest =>
    match s.transitDetails with
    | none => firstDepAux rest
    | some td =>
      match td.stopDetails with
      | none => firstDepAux rest
      | some sd =>
        match sd.departureTime with
        | none => firstDepAux rest
        | some parsed => parsed

/-- `get_first_departure_time`. -/
def get_first_departure_time (rd : RouteData) : Option Time :=
  match getSteps rd with
  | none => none
  | some steps => firstDepAux steps

/-- Loop body of `get_arrival_time` (the source walks `reversed(steps)`). -/
def arrAux : List Step → Option Time
  | [] => none
  | s :: rest =>
    match s.transitDetails with
    | none => arrAux rest
    | some td =>
      match td.stopDetails with
      | none => arrAux rest
      | some sd =>
        match sd.arrivalTime with
        | none => arrAux rest
        | some parsed => parsed

/-- `get_arrival_time`. -/
def get_arrival_time (rd : RouteData) : Option Time :=
  match getSteps rd with
  | none => none
  | some steps => arrAux steps.reverse

/-- Whether one step is a night-bus leg: vehicle type `BUS` and a line label
starting with `N`. -/
def stepIsNightBus (s : Step) : Bool :=
  match s.transitDetails with
  | none => false
  | some td =>
    match td.transitLine with
    | none => false
    | some line =>
      vehicleTypeOf line = "BUS" && (lineLabel line).startsWith "N"

/-- `has_night_bus`. -/
def has_night_bus (rd : RouteData) : Bool :=
  match getSteps rd with
  | none => false
  | some steps => steps.any stepIsNightBus

/-- Whether one step is a fixed-rail leg: vehicle type `SUBWAY` or `RAIL`. -/
def stepIsFixedRail (s : Step) : Bool :=
  match s.transitDetails with
  | none => false
  | some td =>
    match td.transitLine with
    | none => false
    | some line =>
      vehicleTypeOf line = "SUBWAY" || vehicleTypeOf line = "RAIL"

/-- `has_subway`. -/
def has_subway (rd : RouteData) : Bool :=
  match getSteps rd with
  | none => false
  | some steps => steps.any stepIsFixedRail

/-- Outcome of one HTTP round trip of `get_transit_route`: an exception from
`requests.post` (timeout or transport error), or a response with a status
code and a body (`none` = the body does not parse as JSON). -/
inductive HttpOutcome where
  | transportError : HttpOutcome
  | response (status : ℤ) (body : Option RouteData) : HttpOutcome
deriving DecidableEq

/-- Decision logic of `get_transit_route` (lines 43-49): only a status-200
response with a parseable body yields data; everything else yields `None`. -/
def http_get_transit_route (h : HttpOutcome) : Option RouteData :=
  match h with
  | .transportError => none
  | .response status body => if status = 200 then body else none

/-- The oracle as the engine sees it: the parsed answer of the `k`-th
`get_transit_route` call of a run, asked for departure instant `t`. -/
abbrev Oracle := Nat → Time → Option RouteData

/-- A deterministic oracle: every call to the network yields the same parsed
answer for the same departure instant. -/
def detLift (o : Time → Option RouteData) : Oracle := fun _ t => o t

/-- `get_transit_route` at the engine level: one oracle call, counter +1. -/
def get_transit_route (O : Oracle) (k : Nat) (t : Time) :
    Option RouteData × Nat :=
  (O k t, k + 1)

/-- The validity decision of `is_valid_route` (its lines 169-198) as a pure
function of the oracle response `res` and the requested departure instant
`t`.  `mtm`/`mwm` are `max_total_min`/`max_wait_min` (defaults 210 and 80 at
every call site of the source), `anb` is `allow_night_bus` (always `true` at
the source's call sites), `req` is `require_subway`. -/
def route_verdict (res : Option RouteData) (t : Time) (mtm mwm : ℚ)
    (anb req : Bool) : Bool :=
  match res with
  | none => false
  | some rd =>
    match rd.routes with
    | none => false
    | some routes =>
      if routes.length = 0 then false
      else if !anb && has_night_bus rd then false
      else if req && !has_subway rd then false
      else
        match get_arrival_time rd with
        | none => false
        | some arrival =>
          if arrival - t > mtm then false
          else
            match get_first_departure_time rd with
            | none => true
            | some fd => if fd - t > mwm then false else true

/-- `is_valid_route`: one oracle query, then the pure verdict on its
response.  Returns the verdict and the updated call counter. -/
def is_valid_route (O : Oracle) (k : Nat) (t : Time) (mtm mwm : ℚ)
    (anb req : Bool) : Bool × Nat :=
  (route_verdict (O k t) t mtm mwm anb req, k + 1)

/-- Python `int(...)`: truncation toward zero of an exact rational. -/
def truncMin (q : ℚ) : ℤ :=
  if q < 0 then ⌈q⌉ else ⌊q⌋

/-- The duration extraction of `get_route_duration` as a pure function of
the oracle response: minutes between the departure instant and the extracted
arrival, truncated to an integer; `none` on any failure.  (The source checks
`"routes" in result` but not that the list is nonempty; an empty list falls
through to `get_arrival_time`, which yields `None`.) -/
def duration_of (res : Option RouteData) (t : Time) : Option ℤ :=
  match res with
  | none => none
  | some rd =>
    match rd.routes with
    | none => none
    | some _ =>
      match get_arrival_time rd with
      | none => none
      | some arrival => some (truncMin (arrival - t))

/-- `get_route_duration`: one oracle query, then the pure extraction. -/
def get_route_duration (O : Oracle) (k : Nat) (t : Time) :
    Option ℤ × Nat :=
  (duration_of (O k t) t, k + 1)

/-- Midnight starting the civil day of `t`. -/
def dayStart (t : Time) : Time := 1440 * (⌊t / 1440⌋ : ℤ)

/-- Minute-of-day of `t` (the source's `now.hour`/`now.minute` combined). -/
def minOfDay (t : Time) : Time := t - dayStart t

/-- `now.hour`. -/
def hourOf (t : Time) : ℤ := ⌊minOfDay t / 60⌋

/-- The search bracket of `find_last_train_time` (its lines 220-229):
20:30 of the night enclosing or following `now`, paired with 02:00. -/
def lastTrainWindow (now : Time) : Time × Time :=
  if hourOf now ≥ 20 then
    (dayStart now + (20 * 60 + 30), dayStart now + 1440 + 2 * 60)
  else if hourOf now < 2 then
    (dayStart now - 1440 + (20 * 60 + 30), dayStart now + 2 * 60)
  else (dayStart now + (20 * 60 + 30), dayStart now + 1440 + 2 * 60)

/-- The 6-round bisection loop of `find_last_train_time`, with the call
counter threaded through the per-midpoint validity query. -/
def bisectLoop (O : Oracle) (req : Bool) :
    Nat → Nat → Time → Time → (Time × Time) × Nat
  | 0, k, l, r => ((l, r), k)
  | n + 1, k, l, r =>
    let m := l + (r - l) / 2
    let v := is_valid_route O k m 210 80 true req
    if v.1 then bisectLoop O req n v.2 m r else bisectLoop O req n v.2 l m

/-- `find_last_train_time`: the (instant, duration) answer and the updated
call counter.  `now` is injected (the source reads the KST clock). -/
def find_last_train_time (O : Oracle) (k : Nat) (now : Time) (req : Bool) :
    (Option Time × Option ℤ) × Nat :=
  let w := lastTrainWindow now
  let v0 := is_valid_route O k now 210 80 true req
  if !v0.1 then ((none, none), v0.2)
  else
    let vEnd := is_valid_route O v0.2 w.2 210 80 true req
    if vEnd.1 then
      let d := get_route_duration O vEnd.2 w.2
      ((some w.2, d.1), d.2)
    else
      let b := bisectLoop O req 6 vEnd.2 w.1 w.2
      let d := get_route_duration O b.2 b.1.1
      ((some b.1.1, d.1), d.2)

/-- The scan range of `find_recommended_time` (its lines 259-268). -/
def recWindow (now : Time) : Time × Time :=
  if hourOf now ≥ 20 then (now, dayStart now + 1440 + 2 * 60)
  else if hourOf now < 2 then (now, dayStart now + 2 * 60)
  else (dayStart now + (20 * 60 + 30), dayStart now + 1440 + 2 * 60)

/-- The 30-minute scan loop of `find_recommended_time`.  The fuel argument
only bounds recursion depth; `recFuel` below always exceeds the number of
check points `start, start+30, ...` lying before `endT`, so the loop always
exits through its own guard or one of its `break`s, as in the source. -/
def recScan (O : Oracle) (endT : Time) (base : ℤ) :
    Nat → Nat → Time → Time × ℤ → (Time × ℤ) × Nat
  | 0, k, _, best => (best, k)
  | n + 1, k, check, best =>
    if check < endT then
      let d := get_route_duration O k check
      match d.1 with
      | none => (best, d.2)
      | some dur =>
        if (dur : ℚ) > (base : ℚ) * (3 / 2) then (best, d.2)
        else recScan O endT base n d.2 (check + 30) (check, dur)
    else (best, k)

/-- Fuel strictly exceeding the number of scan points in `[start, endT)`. -/
def recFuel (start endT : Time) : Nat :=
  (⌈(endT - start) / 30⌉).toNat + 1

/-- `find_recommended_time`: latest scanned instant whose duration has not
jumped past 1.5x the baseline measured at the scan start.  (`if not
base_duration` in the source is true for `None` and for `0`.) -/
def find_recommended_time (O : Oracle) (k : Nat) (now : Time) :
    (Option Time × Option ℤ) × Nat :=
  let w := recWindow now
  let b := get_route_duration O k w.1
  match b.1 with
  | none => ((none, none), b.2)
  | some base =>
    if base = 0 then ((none, none), b.2)
    else
      let s := recScan O w.2 base (recFuel w.1 w.2) b.2 w.1 (w.1, base)
      ((some s.1.1, some s.1.2), s.2)

/-- `find_all_last_trains`: the subway cutoff, the any-mode cutoff and the
recommended departure, in that order, plus the updated call counter. -/
def find_all_last_trains (O : Oracle) (k : Nat) (now : Time) :
    ((Option Time × Option ℤ) × (Option Time × Option ℤ) ×
      (Option Time × Option ℤ)) × Nat :=
  let subway := find_last_train_time O k now true
  let anyMode := find_last_train_time O subway.2 now false
  let recSlot := find_recommended_time O anyMode.2 now
  ((subway.1, anyMode.1, recSlot.1), recSlot.2)

/-- The data outcome of `analyze_escape_plan`, stripped of its message
formatting: either the no-route answer or the three cutoff slots that feed
the rendered plan. -/
inductive EscapeOutcome where
  | noRoute : EscapeOutcome
  | plan (subway anyMode recSlot : Option Time × Option ℤ) : EscapeOutcome
deriving DecidableEq

/-- `analyze_escape_plan` as a data function: the first query at `now`
decides no-route; otherwise the three searches run, and the recommended slot
is blanked when the any-mode cutoff is gone (line 353 of the source). -/
def analyze_escape_plan (O : Oracle) (now : Time) : EscapeOutcome × Nat :=
  let res := get_transit_route O 0 now
  match res.1 with
  | none => (.noRoute, res.2)
  | some rd =>
    match rd.routes with
    | none => (.noRoute, res.2)
    | some routes =>
      if routes.length = 0 then (.noRoute, res.2)
      else
        let all := find_all_last_trains O res.2 now
        let recSlot := if all.1.2.1.1 = none then (none, none) else all.1.2.2
        (.plan all.1.1 all.1.2.1 recSlot, all.2)

/-- Pure validity verdict of one departure instant under a deterministic
oracle (the thresholds are the source's fixed call-site values). -/
def validAt (o : Time → Option RouteData) (t : Time) (req : Bool) : Bool :=
  route_verdict (o t) t 210 80 true req

/-- Pure duration extraction under a deterministic oracle. -/
def durAt (o : Time → Option RouteData) (t : Time) : Option ℤ :=
  duration_of (o t) t

/-- The bisection bracket after `n` rounds against a pure predicate. -/
def bisectPure (P : Time → Bool) : Nat → Time → Time → Time × Time
  | 0, l, r => (l, r)
  | n + 1, l, r =>
    let m := l + (r - l) / 2
    if P m then bisectPure P n m r else bisectPure P n l m

/-- The answer of `find_last_train_time` under a deterministic oracle. -/
def findPure (o : Time → Option RouteData) (now : Time) (req : Bool) :
    Option Time × Option ℤ :=
  let w := lastTrainWindow now
  if !(validAt o now req) then (none, none)
  else if validAt o w.2 req then (some w.2, durAt o w.2)
  else
    let l := (bisectPure (fun t => validAt o t req) 6 w.1 w.2).1
    (some l, durAt o l)

/-- Query count of `find_last_train_time` under a deterministic oracle. -/
def findCount (o : Time → Option RouteData) (now : Time) (req : Bool) : Nat :=
  if !(validAt o now req) then 1
  else if validAt o (lastTrainWindow now).2 req then 3
  else 9

/-- Claim-side reading of "no route exists": absent result, missing `routes`
key, or an empty route list. -/
def NoRouteInData (res : Option RouteData) : Prop :=
  res = none ∨ ∃ rd, res = some rd ∧ (rd.routes = none ∨ rd.routes = some [])

/-- Claim-side reading of "a leg of kind SUBWAY or RAIL". -/
def FixedRailStep (s : Step) : Prop :=
  ∃ td line, s.transitDetails = some td ∧ td.transitLine = some line ∧
    (vehicleTypeOf line = "SUBWAY" ∨ vehicleTypeOf line = "RAIL")

/-- Claim-side reading of "a BUS leg whose line name starts with the
night-service prefix". -/
def NightBusStep (s : Step) : Prop :=
  ∃ td line, s.transitDetails = some td ∧ td.transitLine = some line ∧
    vehicleTypeOf line = "BUS" ∧ (lineLabel line).startsWith "N" = true

/-- Claim-side: some leg of the analysed route is SUBWAY or RAIL. -/
def HasFixedRailLeg (rd : RouteData) : Prop :=
  ∃ steps, getSteps rd = some steps ∧ ∃ s ∈ steps, FixedRailStep s

/-- Claim-side: some leg of the analysed route is a night bus. -/
def HasNightBusLeg (rd : RouteData) : Prop :=
  ∃ steps, getSteps rd = some steps ∧ ∃ s ∈ steps, NightBusStep s

/-- Claim-side reading of the C6 relation between the two cutoff slots:
both found and ordered, or both missing. -/
def cutoffPattern (s a : Option Time) : Bool :=
  match s, a with
  | some ts, some ta => decide (ts ≤ ta)
  | none, none => true
  | _, _ => false

/-- Test fixture: stop details carrying only a parsed arrival instant. -/
def plainStop (a : Time) : StopDetails := ⟨none, some (some a)⟩

/-- Test fixture: a transit step with no line object, arriving at `a`. -/
def arrStep (a : Time) : Step := ⟨some ⟨none, some (plainStop a)⟩⟩

/-- Test fixture: a one-step route arriving at `a`. -/
def arrRoute (a : Time) : RouteData := ⟨some [⟨some [⟨some [arrStep a]⟩]⟩]⟩

/-- Test fixture: a subway-line step arriving at `a`. -/
def subwayStep (a : Time) : Step :=
  ⟨some ⟨some ⟨some "2", none, some "SUBWAY"⟩, some (plainStop a)⟩⟩

/-- Test fixture: a one-step subway route arriving at `a`. -/
def subwayRoute (a : Time) : RouteData :=
  ⟨some [⟨some [⟨some [subwayStep a]⟩]⟩]⟩

/-- Test fixture: a plain (non-night) bus step arriving at `a`. -/
def busStep (a : Time) : Step :=
  ⟨some ⟨some ⟨some "146", none, some "BUS"⟩, some (plainStop a)⟩⟩

/-- Test fixture: a one-step bus-only route arriving at `a`. -/
def busRoute (a : Time) : RouteData := ⟨some [⟨some [⟨some [busStep a]⟩]⟩]⟩

/-- Oracle valid all night: a subway route arriving at 21:40 (minute 1300)
regardless of the requested departure. -/
def oAllNight : Time → Option RouteData := fun _ => some (subwayRoute 1300)

/-- Oracle answering with a route that arrives at 06:00 (minute 360): the
route exists but the trip takes far more than 210 minutes around 01:00. -/
def oLate : Time → Option RouteData := fun _ => some (arrRoute 360)

/-- Oracle answering with a bus-only route arriving at minute 1300. -/
def oBusOnly : Time → Option RouteData := fun _ => some (busRoute 1300)

/-- Oracle whose route arrives before the departure instant around 21:00,
producing a negative trip duration. -/
def oNeg : Time → Option RouteData := fun _ => some (arrRoute 1250)

/-- Step oracle with feasibility boundary at noon (minute 720): a ten-minute
trip exists for departures up to the boundary, nothing after. -/
def oDayStep : Time → Option RouteData :=
  fun t => if t ≤ 720 then some (arrRoute (t + 10)) else none

/-- Step oracle with feasibility boundary at 23:20 (minute 1400), inside the
night window. -/
def oNightStep : Time → Option RouteData :=
  fun t => if t ≤ 1400 then some (arrRoute (t + 10)) else none

/-- Call-indexed oracle: every query sees a valid route arriving at minute
1300 except the window-end check (call 1) and the final duration re-query
(call 8), which fail. -/
def oC10 : Oracle :=
  fun k _ => if k = 1 ∨ k = 8 then none else some (arrRoute 1300)

/-- A JSON value bound to a present key: either the JSON `null` literal
(Python `None`) or a proper value.  An absent key stays modelled by an
enclosing `Option`, so `Option (JsonVal α)` distinguishes the three cases
absent / null / value, which `dict`-access code treats differently. -/
inductive JsonVal (α : Type) where
  | null : JsonVal α
  | val (a : α) : JsonVal α
deriving DecidableEq

/-- Result of evaluating a piece of Python code: a value, or an uncaught
exception of the named class. -/
inductive PyResult (α : Type) where
  | ok (a : α) : PyResult α
  | exn (exnClass : String) : PyResult α
deriving DecidableEq

/-- Null-aware vehicle object (`line["vehicle"]`).  A null `type` value
behaves like an absent one everywhere (`None` merely compares unequal to
every vehicle string), so both are `none` here. -/
structure JVehicle where
  vtype : Option String
deriving DecidableEq

/-- Null-aware transit line.  `nameShort` conflates null with absent (both
are falsy, so `nameShort or ...` falls through identically), but a null
`name` value is distinct: the computed label is then Python `None`, on
which `.startswith` raises.  A null `vehicle` raises on the next `.get`. -/
structure JTransitLine where
  nameShort : Option String
  name : Option (JsonVal String)
  vehicle : Option (JsonVal JVehicle)
deriving DecidableEq

/-- Null-aware stop details.  A null or empty time string is falsy and
skipped exactly like an absent one, so the time fields keep the typed
model's shape. -/
structure JStopDetails where
  departureTime : Option (Option Time)
  arrivalTime : Option (Option Time)
deriving DecidableEq

/-- Null-aware transit details.  A null `stopDetails` value passes the
`"stopDetails" in td` test and then raises on `td["stopDetails"].get`; a
null `transitLine` value makes `td.get("transitLine", \x7b\x7d)` yield
`None`, which raises on the next `.get`. -/
structure JTransitDetails where
  transitLine : Option (JsonVal JTransitLine)
  stopDetails : Option (JsonVal JStopDetails)
deriving DecidableEq

/-- Null-aware step.  A null `transitDetails` value is falsy and skipped
exactly like an absent one (`if td:`), so it stays a plain `Option`. -/
structure JStep where
  transitDetails : Option JTransitDetails
deriving DecidableEq

/-- Null-aware leg: the `steps` key may be absent, null, or a list. -/
structure JLeg where
  steps : Option (JsonVal (List JStep))
deriving DecidableEq

/-- Null-aware route: the `legs` key may be absent, null, or a list. -/
structure JRoute where
  legs : Option (JsonVal (List JLeg))
deriving DecidableEq

/-- Null-aware response body: the `routes` key may be absent, null, or a
list.  This is the faithful model of a parsed JSON body; `RouteData` above
is its null-free fragment (see `jOfTyped` and the agreement lemmas). -/
structure JRouteData where
  routes : Option (JsonVal (List JRoute))
deriving DecidableEq

/-- Outcome of the shared access path
`route_data["routes"][0]["legs"][0]["steps"]` under Python semantics:
`caught` is a KeyError or IndexError (which every helper's `except` clause
handles), `stepsVal` is the value of the `steps` key (possibly the null
literal, which raises only later, at iteration), and `uncaught` is a
TypeError from subscripting a null value — a class no helper catches. -/
inductive JAccess where
  | caught : JAccess
  | stepsVal (v : JsonVal (List JStep)) : JAccess
  | uncaught (exnClass : String) : JAccess
deriving DecidableEq

/-- The shared access path under null-aware Python semantics: absent keys
raise KeyError and empty lists IndexError (both `caught`); a null `routes`
or `legs` value is subscripted with `[0]` and raises TypeError. -/
def jStepsAccess (rd : JRouteData) : JAccess :=
  match rd.routes with
  | none => .caught
  | some .null => .uncaught "TypeError"
  | some (.val []) => .caught
  | some (.val (r :: _)) =>
    match r.legs with
    | none => .caught
    | some .null => .uncaught "TypeError"
    | some (.val []) => .caught
    | some (.val (l :: _)) =>
      match l.steps with
      | none => .caught
      | some v => .stepsVal v

/-- Loop of `get_arrival_time` over the (already reversed) steps under
null-aware semantics: a null `stopDetails` value raises AttributeError at
`td["stopDetails"].get("arrivalTime")`. -/
def j_arrLoop : List JStep → PyResult (Option Time)
  | [] => .ok none
  | s :: rest =>
    match s.transitDetails with
    | none => j_arrLoop rest
    | some td =>
      match td.stopDetails with
      | none => j_arrLoop rest
      | some .null => .exn "AttributeError"
      | some (.val sd) =>
        match sd.arrivalTime with
        | none => j_arrLoop rest
        | some parsed => .ok parsed

/-- `get_arrival_time` under null-aware semantics: a TypeError from the
access path propagates (the `except` clause names only KeyError and
IndexError), and a null `steps` value raises TypeError at
`reversed(steps)`. -/
def j_get_arrival_time (rd : JRouteData) : PyResult (Option Time) :=
  match jStepsAccess rd with
  | .caught => .ok none
  | .uncaught e => .exn e
  | .stepsVal .null => .exn "TypeError"
  | .stepsVal (.val steps) => j_arrLoop steps.reverse

/-- Loop of `get_first_departure_time` under null-aware semantics. -/
def j_firstDepLoop : List JStep → PyResult (Option Time)
  | [] => .ok none
  | s :: rest =>
    match s.transitDetails with
    | none => j_firstDepLoop rest
    | some td =>
      match td.stopDetails with
      | none => j_firstDepLoop rest
      | some .null => .exn "AttributeError"
      | some (.val sd) =>
        match sd.departureTime with
        | none => j_firstDepLoop rest
        | some parsed => .ok parsed

/-- `get_first_departure_time` under null-aware semantics (a null `steps`
value raises TypeError at `for step in steps`). -/
def j_get_first_departure_time (rd : JRouteData) : PyResult (Option Time) :=
  match jStepsAccess rd with
  | .caught => .ok none
  | .uncaught e => .exn e
  | .stepsVal .null => .exn "TypeError"
  | .stepsVal (.val steps) => j_firstDepLoop steps

/-- Loop of `has_subway` under null-aware semantics: a null `transitLine`
or `vehicle` value raises AttributeError at the following `.get`. -/
def j_subwayLoop : List JStep → PyResult Bool
  | [] => .ok false
  | s :: rest =>
    match s.transitDetails with
    | none => j_subwayLoop rest
    | some td =>
      match td.transitLine with
      | none => j_subwayLoop rest
      | some .null => .exn "AttributeError"
      | some (.val line) =>
        match line.vehicle with
        | none => j_subwayLoop rest
        | some .null => .exn "AttributeError"
        | some (.val v) =>
          match v.vtype with
          | none => j_subwayLoop rest
          | some ty =>
            if ty = "SUBWAY" ∨ ty = "RAIL" then .ok true
            else j_subwayLoop rest

/-- `has_subway` under null-aware semantics. -/
def j_has_subway (rd : JRouteData) : PyResult Bool :=
  match jStepsAccess rd with
  | .caught => .ok false
  | .uncaught e => .exn e
  | .stepsVal .null => .exn "TypeError"
  | .stepsVal (.val steps) => j_subwayLoop steps

/-- The line label of `has_night_bus` under null-aware semantics: binding
`name = line.get("nameShort") or line.get("name", "")` never raises, but a
null `name` value leaves the label bound to Python `None`. -/
def j_lineLabel (line : JTransitLine) : JsonVal String :=
  match line.nameShort with
  | some s =>
    if s = "" then
      match line.name with
      | none => .val ""
      | some .null => .null
      | some (.val n) => .val n
    else .val s
  | none =>
    match line.name with
    | none => .val ""
    | some .null => .null
    | some (.val n) => .val n

/-- Loop of `has_night_bus` under null-aware semantics: a null
`transitLine` or `vehicle` raises AttributeError at `.get`, and — because
`and` short-circuits — a null label raises AttributeError at
`name.startswith("N")` only when the vehicle type is BUS. -/
def j_nightLoop : List JStep → PyResult Bool
  | [] => .ok false
  | s :: rest =>
    match s.transitDetails with
    | none => j_nightLoop rest
    | some td =>
      match td.transitLine with
      | none => j_nightLoop rest
      | some .null => .exn "AttributeError"
      | some (.val line) =>
        match line.vehicle with
        | none => j_nightLoop rest
        | some .null => .exn "AttributeError"
        | some (.val v) =>
          match v.vtype with
          | none => j_nightLoop rest
          | some ty =>
            if ty = "BUS" then
              match j_lineLabel line with
              | .null => .exn "AttributeError"
              | .val lab =>
                if lab.startsWith "N" then .ok true else j_nightLoop rest
            else j_nightLoop rest

/-- `has_night_bus` under null-aware semantics. -/
def j_has_night_bus (rd : JRouteData) : PyResult Bool :=
  match jStepsAccess rd with
  | .caught => .ok false
  | .uncaught e => .exn e
  | .stepsVal .null => .exn "TypeError"
  | .stepsVal (.val steps) => j_nightLoop steps

/-- The no-route test `not result or "routes" not in result or
len(result["routes"]) == 0` shared by `is_valid_route` (line 170) and
`analyze_escape_plan` (line 326), under null-aware semantics: a null
`routes` value passes the membership test and then raises TypeError at
`len(None)` — with no handler in either caller. -/
def j_no_route_guard (res : Option JRouteData) : PyResult Bool :=
  match res with
  | none => .ok true
  | some rd =>
    match rd.routes with
    | none => .ok true
    | some .null => .exn "TypeError"
    | some (.val routes) => .ok (routes.length = 0)

/-- `is_valid_route`'s decision (lines 169-198) under null-aware
semantics, as a function of the parsed response.  The function body has no
try/except of its own, so any exception from the guard or from a helper
propagates to its caller — the search loop. -/
def j_is_valid_route (res : Option JRouteData) (t : Time) (mtm mwm : ℚ)
    (anb req : Bool) : PyResult Bool :=
  match res with
  | none => .ok false
  | some rd =>
    match rd.routes with
    | none => .ok false
    | some .null => .exn "TypeError"
    | some (.val routes) =>
      if routes.length = 0 then .ok false
      else
        match (if !anb then j_has_night_bus rd else .ok false) with
        | .exn e => .exn e
        | .ok nb =>
          if nb then .ok false
          else
            match (if req then j_has_subway rd else .ok true) with
            | .exn e => .exn e
            | .ok hs =>
              if req && !hs then .ok false
              else
                match j_get_arrival_time rd with
                | .exn e => .exn e
                | .ok arrival =>
                  match j_get_first_departure_time rd with
                  | .exn e => .exn e
                  | .ok first_dep =>
                    match arrival with
                    | none => .ok false
                    | some a =>
                      if a - t > mtm then .ok false
                      else
                        match first_dep with
                        | none => .ok true
                        | some fd =>
                          if fd - t > mwm then .ok false else .ok true

/-- Wrap a step list into a one-route, one-leg null-aware body. -/
def jBodyOf (steps : List JStep) : JRouteData :=
  ⟨some (.val [⟨some (.val [⟨some (.val steps)⟩])⟩])⟩

/-- Failing body: `\x7b"routes": null\x7d`. -/
def jNullRoutesBody : JRouteData := ⟨some .null⟩

/-- Failing body: a route whose leg binds `"steps"` to null. -/
def jNullStepsBody : JRouteData :=
  ⟨some (.val [⟨some (.val [⟨some .null⟩])⟩])⟩

/-- Failing step: `"transitLine"` bound to null. -/
def jNullLineStep : JStep := ⟨some ⟨some .null, none⟩⟩

/-- Failing body containing `jNullLineStep`. -/
def jNullLineBody : JRouteData := jBodyOf [jNullLineStep]

/-- Failing step: a BUS line whose `"name"` is bound to null (and no
`nameShort`), so the night-bus check calls `.startswith` on `None`. -/
def jNullNameStep : JStep :=
  ⟨some ⟨some (.val ⟨none, some .null, some (.val ⟨some "BUS"⟩)⟩), none⟩⟩

/-- Failing body containing `jNullNameStep`. -/
def jNullNameBody : JRouteData := jBodyOf [jNullNameStep]

/-- Embedding of the typed (null-free) model into the null-aware one. -/
def jOfStop (sd : StopDetails) : JStopDetails :=
  ⟨sd.departureTime, sd.arrivalTime⟩

/-- Embedding of a typed transit line: a present `name` or vehicle type is
a proper JSON value, never null. -/
def jOfLine (l : TransitLine) : JTransitLine :=
  ⟨l.nameShort, l.name.map .val,
    l.vehicleType.map (fun ty => .val ⟨some ty⟩)⟩

/-- Embedding of typed transit details. -/
def jOfTd (td : TransitDetails) : JTransitDetails :=
  ⟨td.transitLine.map (fun l => .val (jOfLine l)),
    td.stopDetails.map (fun sd => .val (jOfStop sd))⟩

/-- Embedding of a typed step. -/
def jOfStep (s : Step) : JStep := ⟨s.transitDetails.map jOfTd⟩

/-- Embedding of a typed leg. -/
def jOfLeg (l : Leg) : JLeg :=
  ⟨l.steps.map (fun ss => .val (ss.map jOfStep))⟩

/-- Embedding of a typed route. -/
def jOfRoute (r : Route) : JRoute :=
  ⟨r.legs.map (fun ls => .val (ls.map jOfLeg))⟩

/-- Embedding of a typed response body: its image is exactly the bodies
with no null anywhere on the traversed paths. -/
def jOfTyped (rd : RouteData) : JRouteData :=
  ⟨rd.routes.map (fun rs => .val (rs.map jOfRoute))⟩

lemma bisectLoop_det (o : Time → Option RouteData) (req : Bool) :
    ∀ (n k : Nat) (l r : Time),
      bisectLoop (detLift o) req n k l r =
        (bisectPure (fun t => validAt o t req) n l r, k + n) := by
  intro n
  induction n with
  | zero => intro k l r; rfl
  | succ n ih =>
    intro k l r
    have hm : is_valid_route (detLift o) k (l + (r - l) / 2) 210 80 true req
        = (validAt o (l + (r - l) / 2) req, k + 1) := rfl
    simp only [bisectLoop, hm, bisectPure]
    by_cases h : validAt o (l + (r - l) / 2) req
    · rw [if_pos h, if_pos h, ih]
      simp only [Prod.mk.injEq, true_and]
      omega
    · rw [if_neg h, if_neg h, ih]
      simp only [Prod.mk.injEq, true_and]
      omega

lemma find_last_train_time_det (o : Time → Option RouteData) (k : Nat)
    (now : Time) (req : Bool) :
    find_last_train_time (detLift o) k now req =
      (findPure o now req, k + findCount o now req) := by
  have hv : ∀ (k' : Nat) (t : Time), is_valid_route (detLift o) k' t 210 80 true req
      = (validAt o t req, k' + 1) := fun _ _ => rfl
  have hd : ∀ (k' : Nat) (t : Time), get_route_duration (detLift o) k' t
      = (durAt o t, k' + 1) := fun _ _ => rfl
  unfold find_last_train_time findPure findCount
  simp only [hv, hd, bisectLoop_det]
  by_cases h0 : validAt o now req
  · by_cases h2 : validAt o (lastTrainWindow now).2 req
    · simp [h0, h2]
    · simp [h0, h2, Prod.ext_iff]
  · simp [h0]

lemma route_verdict_req_mono (res : Option RouteData) (t : Time)
    (mtm mwm : ℚ) (anb : Bool)
    (h : route_verdict res t mtm mwm anb true = true) :
    route_verdict res t mtm mwm anb false = true := by
  unfold route_verdict at h ⊢
  cases res with
  | none => simp at h
  | some rd =>
    cases hrs : rd.routes with
    | none => simp [hrs] at h
    | some routes =>
      simp only [hrs] at h ⊢
      simp only [Bool.false_and, Bool.true_and] at h ⊢
      split_ifs at h ⊢ <;> simp_all

lemma validAt_req_mono (o : Time → Option RouteData) (t : Time)
    (h : validAt o t true = true) : validAt o t false = true :=
  route_verdict_req_mono (o t) t 210 80 true h

lemma lastTrainWindow_lt (now : Time) :
    (lastTrainWindow now).1 < (lastTrainWindow now).2 := by
  unfold lastTrainWindow
  split_ifs <;> (dsimp only; linarith)

lemma bisectPure_bounds (P : Time → Bool) :
    ∀ (n : Nat) (l r : Time), l ≤ r →
      l ≤ (bisectPure P n l r).1 ∧
      (bisectPure P n l r).1 ≤ (bisectPure P n l r).2 ∧
      (bisectPure P n l r).2 ≤ r := by
  intro n
  induction n with
  | zero => intro l r h; exact ⟨le_refl l, h, le_refl r⟩
  | succ n ih =>
    intro l r h
    have hlm : l ≤ l + (r - l) / 2 := by linarith
    have hmr : l + (r - l) / 2 ≤ r := by linarith
    simp only [bisectPure]
    by_cases hp : P (l + (r - l) / 2)
    · rw [if_pos hp]
      obtain ⟨a, b, c⟩ := ih (l + (r - l) / 2) r hmr
      exact ⟨le_trans hlm a, b, c⟩
    · rw [if_neg hp]
      obtain ⟨a, b, c⟩ := ih l (l + (r - l) / 2) hlm
      exact ⟨a, b, le_trans c hmr⟩

lemma bisectPure_mono (P Q : Time → Bool)
    (hPQ : ∀ t, P t = true → Q t = true) :
    ∀ (n : Nat) (l r : Time), l ≤ r →
      (bisectPure P n l r).1 ≤ (bisectPure Q n l r).1 ∧
      (bisectPure P n l r).2 ≤ (bisectPure Q n l r).2 := by
  intro n
  induction n with
  | zero => intro l r _; exact ⟨le_refl l, le_refl r⟩
  | succ n ih =>
    intro l r h
    have hlm : l ≤ l + (r - l) / 2 := by linarith
    have hmr : l + (r - l) / 2 ≤ r := by linarith
    simp only [bisectPure]
    by_cases hq : Q (l + (r - l) / 2)
    · by_cases hp : P (l + (r - l) / 2)
      · rw [if_pos hp, if_pos hq]
        exact ih (l + (r - l) / 2) r hmr
      · rw [if_neg hp, if_pos hq]
        obtain ⟨pa, pb, pc⟩ := bisectPure_bounds P n l (l + (r - l) / 2) hlm
        obtain ⟨qa, qb, qc⟩ := bisectPure_bounds Q n (l + (r - l) / 2) r hmr
        exact ⟨le_trans (le_trans pb pc) qa, le_trans pc (le_trans qa qb)⟩
    · have hp : ¬ P (l + (r - l) / 2) = true := fun h' => hq (hPQ _ h')
      rw [if_neg hp, if_neg hq]
      exact ih l (l + (r - l) / 2) hlm

lemma findPure_subway_le_any (o : Time → Option RouteData) (now : Time)
    (ts : Time) (ds : Option ℤ) (h : findPure o now true = (some ts, ds)) :
    ∃ ta da, findPure o now false = (some ta, da) ∧ ts ≤ ta := by
  have hw := le_of_lt (lastTrainWindow_lt now)
  unfold findPure at h ⊢
  by_cases h0 : validAt o now true = true
  · have h0' : validAt o now false = true := validAt_req_mono o now h0
    rw [if_neg (by simp [h0] : ¬ (!(validAt o now true)) = true)] at h
    rw [if_neg (by simp [h0'] : ¬ (!(validAt o now false)) = true)]
    by_cases h2 : validAt o (lastTrainWindow now).2 true = true
    · have h2' : validAt o (lastTrainWindow now).2 false = true :=
        validAt_req_mono o _ h2
      rw [if_pos h2] at h
      rw [if_pos h2']
      injection h with h1 h2''
      injection h1 with h1
      exact ⟨(lastTrainWindow now).2, durAt o (lastTrainWindow now).2, rfl,
        le_of_eq h1.symm⟩
    · rw [if_neg h2] at h
      injection h with h1 h2''
      injection h1 with h1
      by_cases h2f : validAt o (lastTrainWindow now).2 false = true
      · rw [if_pos h2f]
        obtain ⟨_, hb, hc⟩ :=
          bisectPure_bounds (fun t => validAt o t true) 6
            (lastTrainWindow now).1 (lastTrainWindow now).2 hw
        exact ⟨(lastTrainWindow now).2, durAt o (lastTrainWindow now).2, rfl,
          h1 ▸ le_trans hb hc⟩
      · rw [if_neg h2f]
        obtain ⟨hm, _⟩ :=
          bisectPure_mono (fun t => validAt o t true)
            (fun t => validAt o t false)
            (fun t ht => validAt_req_mono o t ht) 6
            (lastTrainWindow now).1 (lastTrainWindow now).2 hw
        refine ⟨_, _, rfl, ?_⟩
        exact h1 ▸ hm
  · rw [if_pos (by simp [Bool.not_eq_true] at h0; simp [h0] :
      (!(validAt o now true)) = true)] at h
    exact absurd h (by simp)

lemma bisectPure_step (P : Time → Bool) (B : Time)
    (hP : ∀ t, P t = true ↔ t ≤ B) :
    ∀ (n : Nat) (l r : Time), l ≤ B → B < r →
      (bisectPure P n l r).1 ≤ B ∧ B < (bisectPure P n l r).2 ∧
      (bisectPure P n l r).2 - (bisectPure P n l r).1 = (r - l) / 2 ^ n := by
  intro n
  induction n with
  | zero =>
    intro l r hl hr
    exact ⟨hl, hr, by simp [bisectPure]⟩
  | succ n ih =>
    intro l r hl hr
    simp only [bisectPure]
    by_cases hm : l + (r - l) / 2 ≤ B
    · rw [if_pos ((hP _).mpr hm)]
      obtain ⟨a, b, c⟩ := ih (l + (r - l) / 2) r hm hr
      refine ⟨a, b, ?_⟩
      rw [c]
      field_simp
      ring
    · have hm' : B < l + (r - l) / 2 := lt_of_not_le hm
      rw [if_neg (fun h' => hm ((hP _).mp h'))]
      obtain ⟨a, b, c⟩ := ih l (l + (r - l) / 2) hl hm'
      refine ⟨a, b, ?_⟩
      rw [c]
      field_simp
      ring

lemma recScan_keeps (O : Oracle) (endT : Time) (base : ℤ) :
    ∀ (n k : Nat) (check : Time) (best : Time × ℤ),
      (best.2 : ℚ) ≤ (base : ℚ) * (3 / 2) →
      (((recScan O endT base n k check best).1.2 : ℚ)) ≤ (base : ℚ) * (3 / 2) := by
  intro n
  induction n with
  | zero => intro k check best h; exact h
  | succ n ih =>
    intro k check best h
    simp only [recScan]
    by_cases hg : check < endT
    · rw [if_pos hg]
      cases hd : (get_route_duration O k check).1 with
      | none => exact h
      | some dur =>
        simp only
        by_cases hj : (dur : ℚ) > (base : ℚ) * (3 / 2)
        · rw [if_pos hj]; exact h
        · rw [if_neg hj]
          exact ih _ _ _ (le_of_not_lt hj)
    · rw [if_neg hg]; exact h

lemma recScan_count_ge (O : Oracle) (endT : Time) (base : ℤ) :
    ∀ (n k : Nat) (check : Time) (best : Time × ℤ),
      k ≤ (recScan O endT base n k check best).2 := by
  intro n
  induction n with
  | zero => intro k check best; exact le_refl k
  | succ n ih =>
    intro k check best
    simp only [recScan, get_route_duration]
    by_cases hg : check < endT
    · rw [if_pos hg]
      cases hd : duration_of (O k check) check with
      | none => simp only [hd]; omega
      | some dur =>
        simp only [hd]
        by_cases hj : (dur : ℚ) > (base : ℚ) * (3 / 2)
        · rw [if_pos hj]; omega
        · rw [if_neg hj]
          have := ih (k + 1) (check + 30) (check, dur)
          omega
    · rw [if_neg hg]

lemma find_recommended_count_ge (O : Oracle) (k : Nat) (now : Time) :
    k + 1 ≤ (find_recommended_time O k now).2 := by
  unfold find_recommended_time
  simp only [get_route_duration]
  cases hb : duration_of (O k (recWindow now).1) (recWindow now).1 with
  | none => simp only [hb]; omega
  | some base =>
    simp only [hb]
    split_ifs with h0
    · omega
    · have := recScan_count_ge O (recWindow now).2 base
        (recFuel (recWindow now).1 (recWindow now).2)
        (k + 1) (recWindow now).1 ((recWindow now).1, base)
      omega

lemma minOfDay_nonneg (t : Time) : 0 ≤ minOfDay t := by
  unfold minOfDay dayStart
  nlinarith [Int.floor_le (t / 1440)]

lemma minOfDay_lt (t : Time) : minOfDay t < 1440 := by
  unfold minOfDay dayStart
  nlinarith [Int.lt_floor_add_one (t / 1440)]

lemma hourOf_ge_20_iff (t : Time) : 20 ≤ hourOf t ↔ 1200 ≤ minOfDay t := by
  unfold hourOf
  rw [Int.le_floor]
  constructor
  · intro h
    have h' : (20 : ℚ) ≤ minOfDay t / 60 := by exact_mod_cast h
    linarith
  · intro h
    show (20 : ℚ) ≤ minOfDay t / 60
    linarith

lemma hourOf_lt_2_iff (t : Time) : hourOf t < 2 ↔ minOfDay t < 120 := by
  unfold hourOf
  rw [Int.floor_lt]
  constructor
  · intro h
    have h' : minOfDay t / 60 < (2 : ℚ) := by exact_mod_cast h
    linarith
  · intro h
    show minOfDay t / 60 < (2 : ℚ)
    linarith

lemma now_eq_dayStart_add (now : Time) : now = dayStart now + minOfDay now := by
  unfold minOfDay
  ring

/-- Helper used by the C8 statement and proof. -/

lemma stepIsFixedRail_iff (s : Step) :
    stepIsFixedRail s = true ↔ FixedRailStep s := by
  unfold stepIsFixedRail FixedRailStep
  cases h : s.transitDetails with
  | none => simp
  | some td =>
    cases h2 : td.transitLine with
    | none => simp [h2]
    | some line => simp [h2]

lemma stepIsNightBus_iff (s : Step) :
    stepIsNightBus s = true ↔ NightBusStep s := by
  unfold stepIsNightBus NightBusStep
  cases h : s.transitDetails with
  | none => simp
  | some td =>
    cases h2 : td.transitLine with
    | none => simp [h2]
    | some line => simp [h2]

lemma has_subway_iff (rd : RouteData) :
    has_subway rd = true ↔ HasFixedRailLeg rd := by
  unfold has_subway HasFixedRailLeg
  cases h : getSteps rd with
  | none => simp
  | some steps => simp [List.any_eq_true, stepIsFixedRail_iff]

lemma has_night_bus_iff (rd : RouteData) :
    has_night_bus rd = true ↔ HasNightBusLeg rd := by
  unfold has_night_bus HasNightBusLeg
  cases h : getSteps rd with
  | none => simp
  | some steps => simp [List.any_eq_true, stepIsNightBus_iff]

lemma route_verdict_false_iff (res : Option RouteData) (t : Time)
    (mtm mwm : ℚ) (anb req : Bool) :
    route_verdict res t mtm mwm anb req = false ↔
      (NoRouteInData res ∨
        ∃ rd, res = some rd ∧
          (get_arrival_time rd = none ∨
           (∃ a, get_arrival_time rd = some a ∧ a - t > mtm) ∨
           (∃ fd, get_first_departure_time rd = some fd ∧ fd - t > mwm) ∨
           (req = true ∧ ¬ HasFixedRailLeg rd) ∨
           (anb = false ∧ HasNightBusLeg rd))) := by
  cases res with
  | none => simp [route_verdict, NoRouteInData]
  | some rd =>
    cases hr : rd.routes with
    | none =>
      simp only [route_verdict, hr]
      constructor
      · intro _
        exact Or.inl (Or.inr ⟨rd, rfl, Or.inl hr⟩)
      · intro _
        trivial
    | some routes =>
      cases routes with
      | nil =>
        simp only [route_verdict, hr, List.length_nil]
        constructor
        · intro _
          exact Or.inl (Or.inr ⟨rd, rfl, Or.inr hr⟩)
        · intro _
          simp
      | cons r rest =>
        have hnrd : ¬ NoRouteInData (some rd) := by
          simp [NoRouteInData, hr]
        have hlen : ¬ ((r :: rest).length = 0) := by simp
        simp only [route_verdict, hr, if_neg hlen]
        by_cases hb1 : (!anb && has_night_bus rd) = true
        · rw [if_pos hb1]
          refine iff_of_true rfl ?_
          rcases Bool.and_eq_true_iff.mp hb1 with ⟨ha1, ha2⟩
          have hanb : anb = false := by simpa using ha1
          exact Or.inr ⟨rd, rfl, Or.inr (Or.inr (Or.inr (Or.inr
            ⟨hanb, (has_night_bus_iff rd).mp ha2⟩)))⟩
        · rw [if_neg hb1]
          by_cases hb2 : (req && !has_subway rd) = true
          · rw [if_pos hb2]
            refine iff_of_true rfl ?_
            rcases Bool.and_eq_true_iff.mp hb2 with ⟨hq1, hq2⟩
            refine Or.inr ⟨rd, rfl, Or.inr (Or.inr (Or.inr (Or.inl
              ⟨hq1, fun hfr => ?_⟩)))⟩
            rw [(has_subway_iff rd).mpr hfr] at hq2
            exact absurd hq2 (by simp)
          · rw [if_neg hb2]
            cases ha : get_arrival_time rd with
            | none =>
              refine iff_of_true rfl ?_
              exact Or.inr ⟨rd, rfl, Or.inl ha⟩
            | some a =>
              dsimp only
              by_cases hmt : a - t > mtm
              · rw [if_pos hmt]
                refine iff_of_true rfl ?_
                exact Or.inr ⟨rd, rfl, Or.inr (Or.inl ⟨a, ha, hmt⟩)⟩
              · rw [if_neg hmt]
                have hnotR : ∀ hfd : Option Time,
                    get_first_departure_time rd = hfd →
                    (∀ fd, hfd = some fd → ¬ fd - t > mwm) →
                    ¬ (NoRouteInData (some rd) ∨
                      ∃ rd', (some rd : Option RouteData) = some rd' ∧
                        (get_arrival_time rd' = none ∨
                         (∃ a', get_arrival_time rd' = some a' ∧ a' - t > mtm) ∨
                         (∃ fd, get_first_departure_time rd' = some fd ∧
                            fd - t > mwm) ∨
                         (req = true ∧ ¬ HasFixedRailLeg rd') ∨
                         (anb = false ∧ HasNightBusLeg rd'))) := by
                  intro hfd hfdEq hfdBound hRHS
                  rcases hRHS with h | ⟨rd', hrd', hdis⟩
                  · exact hnrd h
                  · obtain rfl : rd = rd' := Option.some.inj hrd'
                    rcases hdis with h1 | ⟨a', ha', hgt⟩ | ⟨fd, hf, hgt⟩ |
                        ⟨hq, hnofr⟩ | ⟨hab, hnb⟩
                    · rw [ha] at h1
                      exact Option.noConfusion h1
                    · rw [ha] at ha'
                      obtain rfl : a = a' := Option.some.inj ha'
                      exact hmt hgt
                    · rw [hfdEq] at hf
                      exact hfdBound fd hf hgt
                    · have hsub : has_subway rd = true := by
                        have hb2' : (req && !has_subway rd) = false := by
                          simpa using hb2
                        rcases Bool.and_eq_false_iff.mp hb2' with h' | h'
                        · rw [hq] at h'
                          exact absurd h' (by simp)
                        · simpa using h'
                      exact hnofr ((has_subway_iff rd).mp hsub)
                    · have hnbv : has_night_bus rd = false := by
                        have hb1' : (!anb && has_night_bus rd) = false := by
                          simpa using hb1
                        rcases Bool.and_eq_false_iff.mp hb1' with h' | h'
                        · rw [hab] at h'
                          exact absurd h' (by simp)
                        · exact h'
                      rw [(has_night_bus_iff rd).mpr hnb] at hnbv
                      exact Bool.noConfusion hnbv
                cases hf : get_first_departure_time rd with
                | none =>
                  refine iff_of_false (by simp) ?_
                  exact hnotR none hf (fun fd h' => Option.noConfusion h')
                | some fd =>
                  dsimp only
                  by_cases hmw : fd - t > mwm
                  · rw [if_pos hmw]
                    refine iff_of_true rfl ?_
                    exact Or.inr ⟨rd, rfl, Or.inr (Or.inr (Or.inl
                      ⟨fd, hf, hmw⟩))⟩
                  · rw [if_neg hmw]
                    refine iff_of_false (by simp) ?_
                    refine hnotR (some fd) hf ?_
                    intro fd' h'
                    obtain rfl : fd = fd' := Option.some.inj h'
                    exact hmw

lemma oNightStep_valid (k : Nat) (t : Time) :
    (is_valid_route (detLift oNightStep) k t 210 80 true false).1 =
      decide (t ≤ 1400) := by
  show route_verdict (oNightStep t) t 210 80 true false = decide (t ≤ 1400)
  unfold oNightStep
  by_cases h : t ≤ 1400
  · rw [if_pos h]
    have harr : get_arrival_time (arrRoute (t + 10)) = some (t + 10) := rfl
    have hfd : get_first_departure_time (arrRoute (t + 10)) = none := rfl
    have hdiff : t + 10 - t = 10 := by ring
    norm_num [route_verdict, arrRoute, arrStep, plainStop, getSteps,
      get_arrival_time, arrAux, get_first_departure_time, firstDepAux,
      has_night_bus, has_subway, stepIsNightBus, stepIsFixedRail,
      vehicleTypeOf, lineLabel, hdiff, h]
  · rw [if_neg h]
    simp [route_verdict, h]

lemma find_step_boundary (o : Time → Option RouteData) (now B : Time)
    (req : Bool)
    (hstep : ∀ t, validAt o t req = decide (t ≤ B))
    (hsB : (lastTrainWindow now).1 ≤ B)
    (hBe : B < (lastTrainWindow now).2)
    (hnow : now ≤ B) :
    ∃ t d, (find_last_train_time (detLift o) 0 now req).1 = (some t, d) ∧
      |t - B| ≤ ((lastTrainWindow now).2 - (lastTrainWindow now).1) / 64 := by
  rw [find_last_train_time_det]
  have hP : ∀ t, ((fun t => validAt o t req) t = true) ↔ t ≤ B := by
    intro t
    show validAt o t req = true ↔ t ≤ B
    rw [hstep t]
    exact decide_eq_true_iff
  have h0 : validAt o now req = true := by
    rw [hstep now]
    simpa using hnow
  have hend : validAt o (lastTrainWindow now).2 req = false := by
    rw [hstep]
    simpa using not_le.mpr hBe
  unfold findPure
  rw [if_neg (by simp [h0] : ¬ (!(validAt o now req)) = true)]
  rw [if_neg (by simp [hend] : ¬ (validAt o (lastTrainWindow now).2 req) = true)]
  obtain ⟨hl, hr, hwidth⟩ :=
    bisectPure_step (fun t => validAt o t req) B hP 6
      (lastTrainWindow now).1 (lastTrainWindow now).2 hsB hBe
  refine ⟨(bisectPure (fun t => validAt o t req) 6 (lastTrainWindow now).1
      (lastTrainWindow now).2).1, _, rfl, ?_⟩
  rw [abs_sub_comm, abs_of_nonneg (by linarith)]
  have h64 : ((2 : ℚ) ^ 6) = 64 := by norm_num
  rw [h64] at hwidth
  linarith

lemma find_recommended_bound (o : Time → Option RouteData) (now : Time)
    (b : ℤ) (t : Time) (d : ℤ)
    (hb : (get_route_duration (detLift o) 0 (recWindow now).1).1 = some b)
    (hpos : 0 < b)
    (hfound : (find_recommended_time (detLift o) 0 now).1 = (some t, some d)) :
    (d : ℚ) ≤ (b : ℚ) * (3 / 2) := by
  have hb' : duration_of (o (recWindow now).1) (recWindow now).1 = some b := hb
  unfold find_recommended_time at hfound
  simp only [get_route_duration, detLift, hb'] at hfound
  rw [if_neg (by omega : ¬ b = 0)] at hfound
  have hbQ : (0 : ℚ) < (b : ℚ) := by exact_mod_cast hpos
  have hstart : ((((recWindow now).1, b) : Time × ℤ).2 : ℚ) ≤ (b : ℚ) * (3 / 2) := by
    simp only
    linarith
  have hkeep := recScan_keeps (detLift o) (recWindow now).2 b
    (recFuel (recWindow now).1 (recWindow now).2) 1 (recWindow now).1
    ((recWindow now).1, b) hstart
  injection hfound with h1 h2
  injection h2 with h2
  rw [← h2]
  exact hkeep

lemma analyze_invalid_now (o : Time → Option RouteData) (now : Time)
    (rd : RouteData) (routes : List Route)
    (h1 : o now = some rd) (h2 : rd.routes = some routes) (h3 : routes ≠ [])
    (h4 : (is_valid_route (detLift o) 0 now 210 80 true false).1 = false) :
    analyze_escape_plan (detLift o) now =
      (.plan (none, none) (none, none) (none, none),
        (find_recommended_time (detLift o) 3 now).2) ∧
    4 ≤ (find_recommended_time (detLift o) 3 now).2 := by
  have hva : validAt o now false = false := h4
  have hvs : validAt o now true = false := by
    cases hs : validAt o now true with
    | false => rfl
    | true => rw [validAt_req_mono o now hs] at hva; exact hva
  have hsub : find_last_train_time (detLift o) 1 now true = ((none, none), 2) := by
    rw [find_last_train_time_det]
    simp [findPure, findCount, hvs]
  have hany : find_last_train_time (detLift o) 2 now false = ((none, none), 3) := by
    rw [find_last_train_time_det]
    simp [findPure, findCount, hva]
  constructor
  · unfold analyze_escape_plan
    simp only [get_transit_route, detLift, h1, h2]
    rw [if_neg (by simpa using h3)]
    unfold find_all_last_trains
    rw [hsub]
    dsimp only
    rw [hany]
    dsimp only
    simp
  · have := find_recommended_count_ge (detLift o) 3 now
    omega

lemma oDayStep_valid (k : Nat) (t : Time) :
    (is_valid_route (detLift oDayStep) k t 210 80 true false).1 =
      decide (t ≤ 720) := by
  show route_verdict (oDayStep t) t 210 80 true false = decide (t ≤ 720)
  unfold oDayStep
  by_cases h : t ≤ 720
  · rw [if_pos h]
    have hdiff : t + 10 - t = 10 := by ring
    norm_num [route_verdict, arrRoute, arrStep, plainStop, getSteps,
      get_arrival_time, arrAux, get_first_departure_time, firstDepAux,
      has_night_bus, has_subway, stepIsNightBus, stepIsFixedRail,
      vehicleTypeOf, lineLabel, hdiff, h]
  · rw [if_neg h]
    simp [route_verdict, h]

/-- C1 (counterexample): with a deterministic oracle that keeps a subway
route (arriving at minute 1300) available all night and `now` at 21:00, the
route exists and stays valid through the window, yet the full three-answer
search issues 17 oracle queries, not 7. -/
theorem C1_counterexample_seventeen_queries :
    (is_valid_route (detLift oAllNight) 0 1260 210 80 true false).1 = true ∧
    (is_valid_route (detLift oAllNight) 0 1560 210 80 true false).1 = true ∧
    (find_all_last_trains (detLift oAllNight) 0 1260).2 = 17 ∧
    (find_all_last_trains (detLift oAllNight) 0 1260).2 ≠ 7 := by
  have h17 : (find_all_last_trains (detLift oAllNight) 0 1260).2 = 17 := by
    norm_num [find_all_last_trains, find_last_train_time,
      find_recommended_time, recScan, recFuel, recWindow, is_valid_route,
      get_route_duration, get_transit_route, bisectLoop, route_verdict,
      duration_of, detLift, oAllNight, subwayRoute, subwayStep, plainStop,
      getSteps, get_arrival_time, arrAux, get_first_departure_time,
      firstDepAux, has_subway, has_night_bus, stepIsFixedRail,
      stepIsNightBus, vehicleTypeOf, lineLabel, lastTrainWindow, hourOf,
      minOfDay, dayStart, truncMin, List.any, Int.ceil_neg, Int.floor_neg,
      Int.floor_ofNat, Int.ceil_ofNat, Int.floor_intCast, Int.ceil_intCast]
  refine ⟨?_, ?_, h17, ?_⟩
  · norm_num [is_valid_route, get_transit_route, route_verdict, detLift,
      oAllNight, subwayRoute, subwayStep, plainStop, getSteps,
      get_arrival_time, arrAux, get_first_departure_time, firstDepAux,
      has_subway, has_night_bus, stepIsFixedRail, stepIsNightBus,
      vehicleTypeOf, lineLabel]
  · norm_num [is_valid_route, get_transit_route, route_verdict, detLift,
      oAllNight, subwayRoute, subwayStep, plainStop, getSteps,
      get_arrival_time, arrAux, get_first_departure_time, firstDepAux,
      has_subway, has_night_bus, stepIsFixedRail, stepIsNightBus,
      vehicleTypeOf, lineLabel]
  · rw [h17]
    norm_num

/-- C1 (amended): each single cutoff search issues exactly 1, 3 or 9
oracle queries: 1 when the seed check at `now` is invalid, 3 when the
window-end check is also valid (seed + end check + duration), and
9 = 2 + 6 bisection steps + 1 duration re-query otherwise.  The full
three-answer run is the sum of two such searches plus the recommendation
scan, never the flat 7 of the claim. -/
theorem C1_amended_per_search_query_count (o : Time → Option RouteData)
    (now : Time) (req : Bool) :
    (find_last_train_time (detLift o) 0 now req).2 =
      if (is_valid_route (detLift o) 0 now 210 80 true req).1 = false then 1
      else if (is_valid_route (detLift o) 1 (lastTrainWindow now).2
          210 80 true req).1 = true then 3
      else 9 := by
  rw [find_last_train_time_det]
  show (0 + findCount o now req) = _
  have hrew : ∀ (k' : Nat) (t : Time),
      (is_valid_route (detLift o) k' t 210 80 true req).1 = validAt o t req :=
    fun _ _ => rfl
  unfold findCount
  simp only [hrew, Nat.zero_add]
  by_cases h0 : validAt o now req = true
  · by_cases h2 : validAt o (lastTrainWindow now).2 req = true
    · simp [h0, h2]
    · simp [h0, h2]
  · have h0' : validAt o now req = false := by simpa using h0
    simp [h0']

/-- C2 (counterexample): for the step oracle with boundary at noon (minute
720, before the window start) and `now` at 10:00 — all of which satisfies
the claim's hypotheses, since `now` is valid, validity is a step function
and the boundary is strictly before the window end — the bisection returns
the window start 20:30 (minute 1230), which is 510 minutes away from the
true boundary, far beyond the claimed (end - start)/64 of about 5 minutes. -/
theorem C2_counterexample_boundary_before_window :
    find_last_train_time (detLift oDayStep) 0 600 false
      = ((some 1230, none), 9) ∧
    lastTrainWindow 600 = (1230, 1560) ∧
    ((1560 : ℚ) - 1230) / 64 < |(1230 : ℚ) - 720| := by
  refine ⟨?_, ?_, ?_⟩
  · norm_num [find_last_train_time, is_valid_route, get_route_duration,
      get_transit_route, bisectLoop, route_verdict, duration_of, detLift,
      oDayStep, arrRoute, arrStep, plainStop, getSteps, get_arrival_time,
      arrAux, get_first_departure_time, firstDepAux, has_subway,
      has_night_bus, stepIsFixedRail, stepIsNightBus, vehicleTypeOf,
      lineLabel, lastTrainWindow, hourOf, minOfDay, dayStart, truncMin,
      List.any, Int.ceil_neg, Int.floor_neg, Int.floor_ofNat,
      Int.ceil_ofNat, Int.floor_intCast, Int.ceil_intCast]
  · norm_num [lastTrainWindow, hourOf, minOfDay, dayStart]
  · rw [abs_of_nonneg (by norm_num)]
    norm_num

/-- C2 (amended): when the oracle's validity is a step function of the
departure instant with boundary `B`, `now` is valid, and the boundary lies
inside the window (at or after its start, strictly before its end), the
search returns an instant within (end - start)/64 of the boundary. -/
theorem C2_amended_step_boundary_precision (o : Time → Option RouteData)
    (now B : Time) (req : Bool)
    (hstep : ∀ t, (is_valid_route (detLift o) 0 t 210 80 true req).1 =
      decide (t ≤ B))
    (hsB : (lastTrainWindow now).1 ≤ B)
    (hBe : B < (lastTrainWindow now).2)
    (hnow : now ≤ B) :
    ∃ t d, (find_last_train_time (detLift o) 0 now req).1 = (some t, d) ∧
      |t - B| ≤ ((lastTrainWindow now).2 - (lastTrainWindow now).1) / 64 :=
  find_step_boundary o now B req hstep hsB hBe hnow

/-- C2 (witness): the step oracle with boundary 23:20 (minute 1400) inside
the canonical window, searched from 21:00. -/
theorem C2_witness_night_step_oracle :
    ∃ t d, (find_last_train_time (detLift oNightStep) 0 1260 false).1
        = (some t, d) ∧
      |t - 1400| ≤ ((lastTrainWindow 1260).2 - (lastTrainWindow 1260).1) / 64 :=
  C2_amended_step_boundary_precision oNightStep 1260 1400 false
    (fun t => oNightStep_valid 0 t)
    (by norm_num [lastTrainWindow, hourOf, minOfDay, dayStart])
    (by norm_num [lastTrainWindow, hourOf, minOfDay, dayStart])
    (by norm_num)

/-- C3 (confirmed): `is_valid_route` answers false exactly when the oracle
response carries no route, or no arrival instant can be extracted, or the
trip from the departure instant to the last leg's arrival exceeds
`max_total_min`, or a first-leg departure exists and the wait to it exceeds
`max_wait_min`, or a fixed-rail leg is required and none is present, or
night buses are disallowed and a BUS leg's name starts with `N`. -/
theorem C3_is_valid_route_characterisation (O : Oracle) (k : Nat) (t : Time)
    (mtm mwm : ℚ) (anb req : Bool) :
    (is_valid_route O k t mtm mwm anb req).1 = false ↔
      (NoRouteInData (O k t) ∨
        ∃ rd, O k t = some rd ∧
          (get_arrival_time rd = none ∨
           (∃ a, get_arrival_time rd = some a ∧ a - t > mtm) ∨
           (∃ fd, get_first_departure_time rd = some fd ∧ fd - t > mwm) ∨
           (req = true ∧ ¬ HasFixedRailLeg rd) ∨
           (anb = false ∧ HasNightBusLeg rd))) :=
  route_verdict_false_iff (O k t) t mtm mwm anb req

/-- C4 (confirmed): when the oracle yields no result for the seed query at
`now`, the engine answers no-route after exactly one query and never starts
a bisection. -/
theorem C4_no_result_single_query (O : Oracle) (now : Time)
    (h : O 0 now = none) :
    analyze_escape_plan O now = (.noRoute, 1) := by
  simp [analyze_escape_plan, get_transit_route, h]

/-- C4 (witness): the oracle that never answers. -/
theorem C4_witness_silent_oracle :
    analyze_escape_plan (fun _ _ => none) 0 = (.noRoute, 1) :=
  C4_no_result_single_query (fun _ _ => none) 0 rfl

/-- C5 (counterexample): at 01:00 with a route present whose arrival is
06:00 (trip 300 min > 210, so the analysis at `now` is invalid under the
any policy), the engine reports all three answers missing and does not
report no-route, but it issues 6 oracle queries (1 at `now`, 1 per cutoff
seed check, 1 + 2 for the recommendation scan), not the claimed single
query. -/
theorem C5_counterexample_six_queries :
    detLift oLate 0 60 = some (arrRoute 360) ∧
    analyze_escape_plan (detLift oLate) 60
      = (.plan (none, none) (none, none) (none, none), 6) ∧
    (analyze_escape_plan (detLift oLate) 60).2 ≠ 1 := by
  have h6 : analyze_escape_plan (detLift oLate) 60
      = (.plan (none, none) (none, none) (none, none), 6) := by
    norm_num [analyze_escape_plan, find_all_last_trains, find_last_train_time,
      find_recommended_time, recScan, recFuel, recWindow, is_valid_route,
      get_route_duration, get_transit_route, bisectLoop, route_verdict,
      duration_of, detLift, oLate, arrRoute, arrStep, plainStop, getSteps,
      get_arrival_time, arrAux, get_first_departure_time, firstDepAux,
      has_subway, has_night_bus, stepIsFixedRail, stepIsNightBus,
      vehicleTypeOf, lineLabel, lastTrainWindow, hourOf, minOfDay, dayStart,
      truncMin, List.any, Int.ceil_neg, Int.floor_neg, Int.floor_ofNat,
      Int.ceil_ofNat, Int.floor_intCast, Int.ceil_intCast]
  refine ⟨rfl, h6, ?_⟩
  rw [h6]
  norm_num

/-- C5 (amended): whenever a route exists at `now` but its analysis under
the any policy is invalid, the engine reports every answer as missing
without reporting no-route and without bisecting, at the cost of 3 seed
queries plus those of the recommendation scan (at least 4 in total), not
exactly 1. -/
theorem C5_amended_invalid_now_reports_all_missing
    (o : Time → Option RouteData) (now : Time)
    (rd : RouteData) (routes : List Route)
    (h1 : o now = some rd) (h2 : rd.routes = some routes) (h3 : routes ≠ [])
    (h4 : (is_valid_route (detLift o) 0 now 210 80 true false).1 = false) :
    analyze_escape_plan (detLift o) now =
      (.plan (none, none) (none, none) (none, none),
        (find_recommended_time (detLift o) 3 now).2) ∧
    4 ≤ (find_recommended_time (detLift o) 3 now).2 :=
  analyze_invalid_now o now rd routes h1 h2 h3 h4

/-- C5 (witness): the 01:00 late-route scenario instantiating the amended
claim. -/
theorem C5_witness_late_route :
    analyze_escape_plan (detLift oLate) 60 =
      (.plan (none, none) (none, none) (none, none),
        (find_recommended_time (detLift oLate) 3 60).2) ∧
    4 ≤ (find_recommended_time (detLift oLate) 3 60).2 :=
  C5_amended_invalid_now_reports_all_missing oLate 60 (arrRoute 360)
    ((arrRoute 360).routes.getD []) rfl rfl (by simp [arrRoute])
    (by norm_num [is_valid_route, get_transit_route, route_verdict, detLift,
      oLate, arrRoute, arrStep, plainStop, getSteps, get_arrival_time,
      arrAux, get_first_departure_time, firstDepAux, has_subway,
      has_night_bus, stepIsFixedRail, stepIsNightBus, vehicleTypeOf,
      lineLabel])

/-- C6 (counterexample): a bus-only oracle valid all night gives a run on
which the subway cutoff is missing while the any-mode cutoff is found, so
the claimed relation "subway <= any, or both missing" does not hold as
stated (`cutoffPattern` spells out that relation). -/
theorem C6_counterexample_bus_only :
    (find_all_last_trains (detLift oBusOnly) 0 1260).1.1 = (none, none) ∧
    (find_all_last_trains (detLift oBusOnly) 0 1260).1.2.1
      = (some 1560, some (-260)) ∧
    cutoffPattern (find_all_last_trains (detLift oBusOnly) 0 1260).1.1.1
      (find_all_last_trains (detLift oBusOnly) 0 1260).1.2.1.1 = false := by
  have hns : ¬ ("BUS" = "SUBWAY") := by simp
  have hnr : ¬ ("BUS" = "RAIL") := by simp
  have hall : find_all_last_trains (detLift oBusOnly) 0 1260
      = (((none, none), (some 1560, some (-260)), (some 1530, some (-230))),
        15) := by
    norm_num [hns, hnr, find_all_last_trains, find_last_train_time,
      find_recommended_time, recScan, recFuel, recWindow, is_valid_route,
      get_route_duration, get_transit_route, bisectLoop, route_verdict,
      duration_of, detLift, oBusOnly, busRoute, busStep, plainStop, getSteps,
      get_arrival_time, arrAux, get_first_departure_time, firstDepAux,
      has_subway, has_night_bus, stepIsFixedRail, stepIsNightBus,
      vehicleTypeOf, lineLabel, lastTrainWindow, hourOf, minOfDay, dayStart,
      truncMin, List.any, Int.ceil_neg, Int.floor_neg, Int.floor_ofNat,
      Int.ceil_ofNat, Int.floor_intCast, Int.ceil_intCast]
  rw [hall]
  exact ⟨rfl, rfl, rfl⟩

/-- C6 (amended): on one full deterministic search, if the subway cutoff is
found then the any-mode cutoff is found too and is no earlier — because
fixed-rail validity implies any-mode validity on the same response — while
a found any-mode cutoff with a missing subway cutoff remains possible. -/
theorem C6_amended_subway_found_implies_any (o : Time → Option RouteData)
    (now : Time) (ts : Time) (ds : Option ℤ)
    (h : (find_all_last_trains (detLift o) 0 now).1.1 = (some ts, ds)) :
    ∃ ta da, (find_all_last_trains (detLift o) 0 now).1.2.1 = (some ta, da) ∧
      ts ≤ ta := by
  have hs : (find_all_last_trains (detLift o) 0 now).1.1
      = findPure o now true := by
    show (find_last_train_time (detLift o) 0 now true).1 = _
    rw [find_last_train_time_det]
  have ha : (find_all_last_trains (detLift o) 0 now).1.2.1
      = findPure o now false := by
    show (find_last_train_time (detLift o)
        (find_last_train_time (detLift o) 0 now true).2 now false).1 = _
    rw [find_last_train_time_det]
  rw [hs] at h
  rw [ha]
  exact findPure_subway_le_any o now ts ds h

/-- C6 (witness): the all-night subway oracle, where both cutoffs are found
at the window end. -/
theorem C6_witness_subway_all_night :
    ∃ ta da, (find_all_last_trains (detLift oAllNight) 0 1260).1.2.1
        = (some ta, da) ∧ (1560 : ℚ) ≤ ta :=
  C6_amended_subway_found_implies_any oAllNight 1260 1560 (some (-260))
    (by norm_num [find_all_last_trains, find_last_train_time,
      find_recommended_time, recScan, recFuel, recWindow, is_valid_route,
      get_route_duration, get_transit_route, bisectLoop, route_verdict,
      duration_of, detLift, oAllNight, subwayRoute, subwayStep, plainStop,
      getSteps, get_arrival_time, arrAux, get_first_departure_time,
      firstDepAux, has_subway, has_night_bus, stepIsFixedRail,
      stepIsNightBus, vehicleTypeOf, lineLabel, lastTrainWindow, hourOf,
      minOfDay, dayStart, truncMin, List.any, Int.ceil_neg, Int.floor_neg,
      Int.floor_ofNat, Int.ceil_ofNat, Int.floor_intCast, Int.ceil_intCast])

/-- C7 (counterexample): when the route available at the scan start (here
equal to `now`, 21:00) arrives before departure, the baseline duration is
-10 and the recommendation is returned with duration -10, which exceeds
1.5 x (-10) = -15 — the claimed bound fails for non-positive baselines. -/
theorem C7_counterexample_negative_baseline :
    get_route_duration (detLift oNeg) 0 1260 = (some (-10), 1) ∧
    find_recommended_time (detLift oNeg) 0 1260
      = ((some 1260, some (-10)), 2) ∧
    ((3 : ℚ) / 2) * (-10) < -10 := by
  refine ⟨?_, ?_, by norm_num⟩
  · norm_num [get_route_duration, get_transit_route, duration_of, detLift,
      oNeg, arrRoute, arrStep, plainStop, getSteps, get_arrival_time,
      arrAux, truncMin, Int.ceil_neg, Int.floor_neg, Int.floor_ofNat,
      Int.ceil_ofNat, Int.floor_intCast, Int.ceil_intCast]
  · norm_num [find_recommended_time, recScan, recFuel, recWindow,
      get_route_duration, get_transit_route, duration_of, detLift, oNeg,
      arrRoute, arrStep, plainStop, getSteps, get_arrival_time, arrAux,
      hourOf, minOfDay, dayStart, truncMin, Int.ceil_neg, Int.floor_neg,
      Int.floor_ofNat, Int.ceil_ofNat, Int.floor_intCast, Int.ceil_intCast]

/-- C7 (amended): whenever the recommendation is found and the baseline
duration measured at the scan start (equal to `now` only when `now` lies in
the night hours; otherwise it is the same-day 20:30) is positive, the
recommended duration is at most 1.5 times that baseline. -/
theorem C7_amended_recommended_duration_bound (o : Time → Option RouteData)
    (now : Time) (b : ℤ) (t : Time) (d : ℤ)
    (hb : (get_route_duration (detLift o) 0 (recWindow now).1).1 = some b)
    (hpos : 0 < b)
    (hfound : (find_recommended_time (detLift o) 0 now).1 = (some t, some d)) :
    (d : ℚ) ≤ (b : ℚ) * (3 / 2) :=
  find_recommended_bound o now b t d hb hpos hfound

/-- C7 (witness): the all-night subway oracle at 21:00, with baseline 40
and recommended duration -230. -/
theorem C7_witness_positive_baseline :
    (find_recommended_time (detLift oAllNight) 0 1260).1
      = (some 1530, some (-230)) ∧
    ((-230 : ℤ) : ℚ) ≤ ((40 : ℤ) : ℚ) * (3 / 2) := by
  have hrec : (find_recommended_time (detLift oAllNight) 0 1260).1
      = (some 1530, some (-230)) := by
    norm_num [find_recommended_time, recScan, recFuel, recWindow,
      get_route_duration, get_transit_route, duration_of, detLift,
      oAllNight, subwayRoute, subwayStep, plainStop, getSteps,
      get_arrival_time, arrAux, hourOf, minOfDay, dayStart, truncMin,
      Int.ceil_neg, Int.floor_neg, Int.floor_ofNat, Int.ceil_ofNat,
      Int.floor_intCast, Int.ceil_intCast]
  refine ⟨hrec, ?_⟩
  exact C7_amended_recommended_duration_bound oAllNight 1260 40 1530 (-230)
    (by norm_num [get_route_duration, get_transit_route, duration_of,
      detLift, oAllNight, subwayRoute, subwayStep, plainStop, getSteps,
      get_arrival_time, arrAux, recWindow, hourOf, minOfDay, dayStart,
      truncMin, Int.ceil_neg, Int.floor_neg, Int.floor_ofNat, Int.ceil_ofNat,
      Int.floor_intCast, Int.ceil_intCast])
    (by norm_num) hrec

/-- C8 (counterexample): at 10:00 (minute 600) the computed window is
[20:30, 02:00] of the coming night, and `now` lies strictly before its
start, so "now always falls inside the window" fails. -/
theorem C8_counterexample_daytime_now :
    lastTrainWindow 600 = (1230, 1560) ∧ (600 : ℚ) < 1230 := by
  constructor
  · norm_num [lastTrainWindow, hourOf, minOfDay, dayStart]
  · norm_num

/-- C8 (amended): the window always satisfies start < end, and `now` lies
inside [start, end] exactly when its minute-of-day is at or after 20:30 or
before 02:00; for a daytime `now` the window is the coming night and `now`
falls strictly before its start. -/
theorem C8_amended_window_invariant (now : Time) :
    (lastTrainWindow now).1 < (lastTrainWindow now).2 ∧
    ((lastTrainWindow now).1 ≤ now ∧ now ≤ (lastTrainWindow now).2 ↔
      1230 ≤ minOfDay now ∨ minOfDay now < 120) := by
  have hm0 := minOfDay_nonneg now
  have hm1 := minOfDay_lt now
  have hday := now_eq_dayStart_add now
  unfold lastTrainWindow
  by_cases h20 : hourOf now ≥ 20
  · rw [if_pos h20]
    dsimp only
    have h1200 : 1200 ≤ minOfDay now := (hourOf_ge_20_iff now).mp h20
    refine ⟨by linarith, ?_⟩
    constructor
    · rintro ⟨ha, _⟩
      left
      linarith
    · rintro (h | h)
      · exact ⟨by linarith, by linarith⟩
      · linarith
  · rw [if_neg h20]
    have h1200 : minOfDay now < 1200 := by
      by_contra hc
      exact h20 ((hourOf_ge_20_iff now).mpr (le_of_not_lt hc))
    by_cases h2 : hourOf now < 2
    · rw [if_pos h2]
      dsimp only
      have h120 : minOfDay now < 120 := (hourOf_lt_2_iff now).mp h2
      refine ⟨by linarith, ?_⟩
      constructor
      · intro _
        right
        exact h120
      · intro _
        exact ⟨by linarith, by linarith⟩
    · rw [if_neg h2]
      dsimp only
      have h120 : 120 ≤ minOfDay now := by
        by_contra hc
        exact h2 ((hourOf_lt_2_iff now).mpr (lt_of_not_le hc))
      refine ⟨by linarith, ?_⟩
      constructor
      · rintro ⟨ha, _⟩
        left
        linarith
      · rintro (h | h)
        · linarith
        · linarith

/-- Absorption on the typed (null-free) domain: every failure is absorbed into the
none/invalid channel rather than surfacing to the caller: the HTTP wrapper
returns `none` on a transport error, a non-200 status, or an unparseable
body; the extraction helpers return their defaults whenever the shared
steps path is missing; a `none` oracle answer makes the validity check
false and the duration `none` within the same single query; and an empty
route list is likewise invalid. -/
theorem typed_failures_absorbed :
    (http_get_transit_route .transportError = none) ∧
    (∀ (s : ℤ) (b : Option RouteData), s ≠ 200 →
      http_get_transit_route (.response s b) = none) ∧
    (http_get_transit_route (.response 200 none) = none) ∧
    (∀ rd : RouteData, getSteps rd = none →
      get_arrival_time rd = none ∧ get_first_departure_time rd = none ∧
      has_subway rd = false ∧ has_night_bus rd = false) ∧
    (∀ (O : Oracle) (k : Nat) (t : Time) (mtm mwm : ℚ) (anb req : Bool),
      O k t = none →
        is_valid_route O k t mtm mwm anb req = (false, k + 1) ∧
        get_route_duration O k t = (none, k + 1)) ∧
    (∀ (O : Oracle) (k : Nat) (t : Time) (mtm mwm : ℚ) (anb req : Bool)
        (rd : RouteData), O k t = some rd → rd.routes = some [] →
        (is_valid_route O k t mtm mwm anb req).1 = false) := by
  refine ⟨rfl, ?_, rfl, ?_, ?_, ?_⟩
  · intro s b hs
    simp [http_get_transit_route, hs]
  · intro rd h
    exact ⟨by simp [get_arrival_time, h], by simp [get_first_departure_time, h],
      by simp [has_subway, h], by simp [has_night_bus, h]⟩
  · intro O k t mtm mwm anb req h
    constructor
    · simp [is_valid_route, route_verdict, h]
    · simp [get_route_duration, duration_of, h]
  · intro O k t mtm mwm anb req rd h1 h2
    simp [is_valid_route, route_verdict, h1, h2]

/-- Concrete instances of the typed-domain absorption lemma: an HTTP 500,
a body with an empty route list, and a silent oracle all land in the
none/invalid channel. -/
theorem typed_failures_absorbed_example :
    http_get_transit_route (.response 500 (some (arrRoute 0))) = none ∧
    get_arrival_time ⟨some []⟩ = none ∧
    is_valid_route (fun _ _ => none) 0 0 210 80 true false = (false, 1) ∧
    (is_valid_route (fun _ _ => some ⟨some []⟩) 3 0 210 80 true false).1
      = false := by
  refine ⟨?_, ?_, ?_, ?_⟩
  · exact typed_failures_absorbed.2.1 500 (some (arrRoute 0)) (by norm_num)
  · exact (typed_failures_absorbed.2.2.2.1 ⟨some []⟩ rfl).1
  · exact (typed_failures_absorbed.2.2.2.2.1 (fun _ _ => none) 0 0 210 80
      true false rfl).1
  · exact typed_failures_absorbed.2.2.2.2.2 (fun _ _ => some ⟨some []⟩) 3 0
      210 80 true false ⟨some []⟩ rfl rfl

lemma jStepsAccess_jOfTyped (rd : RouteData) :
    jStepsAccess (jOfTyped rd) =
      match getSteps rd with
      | none => .caught
      | some steps => .stepsVal (.val (steps.map jOfStep)) := by
  unfold jStepsAccess jOfTyped getSteps
  cases hro : rd.routes with
  | none => rfl
  | some rs =>
    cases rs with
    | nil => rfl
    | cons r rest =>
      simp only [Option.map_some', List.map_cons]
      unfold jOfRoute
      cases hl : r.legs with
      | none => rfl
      | some ls =>
        cases ls with
        | nil => rfl
        | cons l lrest =>
          simp only [Option.map_some', List.map_cons]
          unfold jOfLeg
          cases hs : l.steps with
          | none => rfl
          | some ss => rfl

lemma j_arrLoop_map (l : List Step) :
    j_arrLoop (l.map jOfStep) = .ok (arrAux l) := by
  induction l with
  | nil => rfl
  | cons s rest ih =>
    simp only [List.map_cons, j_arrLoop, arrAux, jOfStep]
    cases htd : s.transitDetails with
    | none => simpa using ih
    | some td =>
      simp only [Option.map_some']
      unfold jOfTd
      cases hsd : td.stopDetails with
      | none => simpa using ih
      | some sd =>
        simp only [Option.map_some']
        cases har : sd.arrivalTime with
        | none => simpa [jOfStop, har] using ih
        | some parsed => simp [jOfStop, har]

lemma j_firstDepLoop_map (l : List Step) :
    j_firstDepLoop (l.map jOfStep) = .ok (firstDepAux l) := by
  induction l with
  | nil => rfl
  | cons s rest ih =>
    simp only [List.map_cons, j_firstDepLoop, firstDepAux, jOfStep]
    cases htd : s.transitDetails with
    | none => simpa using ih
    | some td =>
      simp only [Option.map_some']
      unfold jOfTd
      cases hsd : td.stopDetails with
      | none => simpa using ih
      | some sd =>
        simp only [Option.map_some']
        cases har : sd.departureTime with
        | none => simpa [jOfStop, har] using ih
        | some parsed => simp [jOfStop, har]

lemma j_subwayLoop_map (l : List Step) :
    j_subwayLoop (l.map jOfStep) = .ok (l.any stepIsFixedRail) := by
  induction l with
  | nil => rfl
  | cons s rest ih =>
    simp only [List.map_cons, j_subwayLoop, List.any_cons, jOfStep]
    cases htd : s.transitDetails with
    | none => simpa [stepIsFixedRail, htd] using ih
    | some td =>
      simp only [Option.map_some']
      unfold jOfTd
      cases hli : td.transitLine with
      | none => simpa [stepIsFixedRail, htd, hli] using ih
      | some line =>
        simp only [Option.map_some']
        unfold jOfLine
        cases hv : line.vehicleType with
        | none =>
          simpa [stepIsFixedRail, htd, hli, vehicleTypeOf, hv] using ih
        | some ty =>
          simp only [Option.map_some']
          by_cases hty : ty = "SUBWAY" ∨ ty = "RAIL"
          · have hfr : stepIsFixedRail s = true := by
              simp [stepIsFixedRail, htd, hli, vehicleTypeOf, hv,
                Bool.or_eq_true, decide_eq_true_eq]
              exact hty
            rw [if_pos hty]
            simp [hfr]
          · have hfr : stepIsFixedRail s = false := by
              push_neg at hty
              simp [stepIsFixedRail, htd, hli, vehicleTypeOf, hv,
                hty.1, hty.2]
            rw [if_neg hty]
            simpa [hfr] using ih

lemma j_lineLabel_mk (l : TransitLine) (vh : Option (JsonVal JVehicle)) :
    j_lineLabel ⟨l.nameShort, l.name.map .val, vh⟩ = .val (lineLabel l) := by
  unfold j_lineLabel lineLabel
  cases hns : l.nameShort with
  | none =>
    cases hn : l.name with
    | none => rfl
    | some n => rfl
  | some s =>
    by_cases hs : s = ""
    · simp only [hs, if_pos rfl]
      cases hn : l.name with
      | none => rfl
      | some n => rfl
    · simp [hs]

lemma j_nightLoop_map (l : List Step) :
    j_nightLoop (l.map jOfStep) = .ok (l.any stepIsNightBus) := by
  induction l with
  | nil => rfl
  | cons s rest ih =>
    simp only [List.map_cons, j_nightLoop, List.any_cons, jOfStep]
    cases htd : s.transitDetails with
    | none => simpa [stepIsNightBus, htd] using ih
    | some td =>
      simp only [Option.map_some']
      unfold jOfTd
      cases hli : td.transitLine with
      | none => simpa [stepIsNightBus, htd, hli] using ih
      | some line =>
        simp only [Option.map_some']
        cases hv : line.vehicleType with
        | none =>
          simpa [stepIsNightBus, htd, hli, vehicleTypeOf, hv, jOfLine]
            using ih
        | some ty =>
          simp only [jOfLine, Option.map_some']
          simp only [hv, Option.map_some']
          by_cases hbus : ty = "BUS"
          · rw [if_pos hbus, j_lineLabel_mk line]
            dsimp only
            by_cases hN : (lineLabel line).startsWith "N" = true
            · have hnb : stepIsNightBus s = true := by
                simp [stepIsNightBus, htd, hli, vehicleTypeOf, hv, hbus, hN]
              rw [if_pos hN]
              simp [hnb]
            · have hnb : stepIsNightBus s = false := by
                simp only [Bool.not_eq_true] at hN
                simp [stepIsNightBus, htd, hli, vehicleTypeOf, hv, hN]
              rw [if_neg hN]
              simpa [hnb] using ih
          · have hnb : stepIsNightBus s = false := by
              simp [stepIsNightBus, htd, hli, vehicleTypeOf, hv, hbus]
            rw [if_neg hbus]
            simpa [hnb] using ih

lemma j_has_subway_agrees (rd : RouteData) :
    j_has_subway (jOfTyped rd) = .ok (has_subway rd) := by
  unfold j_has_subway has_subway
  rw [jStepsAccess_jOfTyped]
  cases h : getSteps rd with
  | none => rfl
  | some steps => exact j_subwayLoop_map steps

lemma j_has_night_bus_agrees (rd : RouteData) :
    j_has_night_bus (jOfTyped rd) = .ok (has_night_bus rd) := by
  unfold j_has_night_bus has_night_bus
  rw [jStepsAccess_jOfTyped]
  cases h : getSteps rd with
  | none => rfl
  | some steps => exact j_nightLoop_map steps

lemma j_get_arrival_time_agrees (rd : RouteData) :
    j_get_arrival_time (jOfTyped rd) = .ok (get_arrival_time rd) := by
  unfold j_get_arrival_time get_arrival_time
  rw [jStepsAccess_jOfTyped]
  cases h : getSteps rd with
  | none => rfl
  | some steps =>
    show j_arrLoop (steps.map jOfStep).reverse = .ok (arrAux steps.reverse)
    rw [← List.map_reverse]
    exact j_arrLoop_map steps.reverse

lemma j_get_first_departure_time_agrees (rd : RouteData) :
    j_get_first_departure_time (jOfTyped rd)
      = .ok (get_first_departure_time rd) := by
  unfold j_get_first_departure_time get_first_departure_time
  rw [jStepsAccess_jOfTyped]
  cases h : getSteps rd with
  | none => rfl
  | some steps => exact j_firstDepLoop_map steps

lemma j_is_valid_route_agrees (rd : RouteData) (t : Time) (mtm mwm : ℚ)
    (anb req : Bool) :
    j_is_valid_route (some (jOfTyped rd)) t mtm mwm anb req
      = .ok (route_verdict (some rd) t mtm mwm anb req) := by
  unfold j_is_valid_route route_verdict
  cases hro : rd.routes with
  | none =>
    have h1 : (jOfTyped rd).routes = none := by simp [jOfTyped, hro]
    simp only [h1, hro]
  | some rs =>
    have h1 : (jOfTyped rd).routes = some (.val (rs.map jOfRoute)) := by
      simp [jOfTyped, hro]
    simp only [h1, hro]
    by_cases hlen : rs.length = 0
    · rw [if_pos (by simpa using hlen), if_pos hlen]
    · rw [if_neg (by simpa using hlen), if_neg hlen]
      rw [j_has_night_bus_agrees, j_has_subway_agrees,
        j_get_arrival_time_agrees, j_get_first_departure_time_agrees]
      cases hanb : anb <;> cases hnb : has_night_bus rd <;>
        cases hreq : req <;> cases hhs : has_subway rd <;>
          cases harr : get_arrival_time rd <;>
            cases hfd : get_first_departure_time rd <;>
              simp_all <;> split_ifs <;> simp_all

/-- C9 (code bug): contrary to the fail-closed claim, a parseable body
that binds a traversed key to the JSON `null` literal raises an uncaught
exception out of the validity check: `\x7b"routes": null\x7d` hits
`len(None)` (TypeError) in `is_valid_route` line 170 and in the no-route
guard of `analyze_escape_plan` line 326; a null `steps` value raises
TypeError at iteration inside `get_arrival_time`; a null `transitLine`
raises AttributeError inside `has_subway`, hence out of `is_valid_route`
whenever a fixed-rail leg is required; and a BUS leg whose line `name` is
null raises AttributeError inside `has_night_bus`.  None of these classes
is caught — the helpers name only `(KeyError, IndexError)` and the search
has no handler at all — while an absent body or an empty route list stays
in the ok/invalid channel, as the last two conjuncts contrast. -/
theorem C9_null_body_raises :
    j_is_valid_route (some jNullRoutesBody) 1260 210 80 true false
      = .exn "TypeError" ∧
    j_no_route_guard (some jNullRoutesBody) = .exn "TypeError" ∧
    j_get_arrival_time jNullStepsBody = .exn "TypeError" ∧
    j_has_subway jNullLineBody = .exn "AttributeError" ∧
    j_is_valid_route (some jNullLineBody) 1260 210 80 true true
      = .exn "AttributeError" ∧
    j_has_night_bus jNullNameBody = .exn "AttributeError" ∧
    j_is_valid_route none 1260 210 80 true false = .ok false ∧
    j_is_valid_route (some ⟨some (.val [])⟩) 1260 210 80 true false
      = .ok false :=
  ⟨rfl, rfl, rfl, rfl, rfl, rfl, rfl, rfl⟩

/-- C10 (confirmed): with an oracle that answers every probe with a valid
route except the window-end check (call 1) and the final duration re-query
(call 8), the search returns a found cutoff instant paired with a null
duration: the instant was confirmed valid by the last bisection probe
(call 7), but the separate duration query at call 8 extracts nothing. -/
theorem C10_found_cutoff_null_duration :
    find_last_train_time oC10 0 1260 false = ((some (49755 / 32), none), 9) ∧
    (is_valid_route oC10 7 (49755 / 32) 210 80 true false).1 = true ∧
    (get_route_duration oC10 8 (49755 / 32)).1 = none := by
  refine ⟨?_, ?_, ?_⟩
  · norm_num [find_last_train_time, is_valid_route, get_route_duration,
      get_transit_route, bisectLoop, route_verdict, duration_of, oC10,
      arrRoute, arrStep, plainStop, getSteps, get_arrival_time, arrAux,
      get_first_departure_time, firstDepAux, has_subway, has_night_bus,
      stepIsFixedRail, stepIsNightBus, vehicleTypeOf, lineLabel,
      lastTrainWindow, hourOf, minOfDay, dayStart, truncMin, List.any,
      Int.ceil_neg, Int.floor_neg, Int.floor_ofNat, Int.ceil_ofNat,
      Int.floor_intCast, Int.ceil_intCast]
  · norm_num [is_valid_route, get_transit_route, route_verdict, oC10,
      arrRoute, arrStep, plainStop, getSteps, get_arrival_time, arrAux,
      get_first_departure_time, firstDepAux, has_subway, has_night_bus,
      stepIsFixedRail, stepIsNightBus, vehicleTypeOf, lineLabel, truncMin]
  · norm_num [get_route_duration, get_transit_route, duration_of, oC10]
